import Mathlib

/-!
Shallow embedding of `src/app.py` (class `GestionTurnos`), a SQLite-backed
appointment manager for a clinic.

Modelling conventions:

* The database is a record of three relations (`pacientes`, `medicos`,
  `turnos`) plus the AUTOINCREMENT counter for `turnos` (the value
  `cursor.lastrowid` reports after an insert).
* The DDL in `crear_tablas` does not match the DML: its first `execute` call
  packs several statements (rejected by the sqlite3 driver), the declared
  `turnos` table has columns `fecha, horario, id_paciente, id_medico,
  id_consultorio` while every query uses `paciente_id, medico_id, fecha_hora,
  duracion, estado, motivo_consulta, observaciones, id`, and the `pacientes`
  DDL is syntactically invalid.  We model the store the DML implies: each
  relation has exactly the columns the INSERT/SELECT/UPDATE statements name,
  and a column a statement never writes holds NULL (`Option.none`).
* Timestamps are strings in the code, parsed with
  `datetime.strptime(_, '%Y-%m-%d %H:%M')` and compared through SQLite's
  `datetime(...)`.  Both orders agree with chronological order on well-formed
  strings, so a timestamp is modelled as an `Int` (minutes); a string that
  fails to parse is `Option.none`.  SQLite's `DATE(...)` truncation to the
  calendar day is modelled by `fechaDe`.  The modifier
  `datetime(fecha_hora, '+' || duracion || ' minutes')` is modelled as
  integer addition, faithful for non-negative durations.
* Operations that print an error and return `None`/`False` are modelled as
  returning `none`/`false` together with the (unchanged or updated) store.
-/

namespace GestionTurnos

/-- A row of the `pacientes` relation as the DML uses it
(`p.id`, `p.nombre`, `p.apellido`, `dni`). -/
structure Paciente where
  id : Nat
  nombre : String
  apellido : String
  dni : String
deriving DecidableEq, Repr

/-- A row of the `medicos` relation as the DML uses it
(`m.id`, `m.nombre`, `m.apellido`, `m.especialidad`). -/
structure Medico where
  id : Nat
  nombre : String
  apellido : String
  especialidad : String
deriving DecidableEq, Repr

/-- A row of the `turnos` relation as the DML uses it.  `estado` and
`observaciones` are nullable: the INSERT in `crear_turno` writes neither. -/
structure Turno where
  id : Nat
  paciente_id : Nat
  medico_id : Nat
  fecha_hora : Int
  duracion : Int
  motivo_consulta : Option String
  estado : Option String
  observaciones : Option String
deriving DecidableEq, Repr

/-- The persistent store. -/
structure DB where
  pacientes : List Paciente
  medicos : List Medico
  turnos : List Turno
  next_turno_id : Nat
deriving DecidableEq, Repr

/-- The empty store right after construction (AUTOINCREMENT starts at 1). -/
def dbVacia : DB := { pacientes := [], medicos := [], turnos := [], next_turno_id := 1 }

/-- SQLite `DATE(t)`: the calendar day of a timestamp, with a day = 1440
minutes. -/
def fechaDe (t : Int) : Int := t / 1440

/-- The WHERE clause of the conflict-counting query in
`verificar_disponibilidad`, evaluated on one row of `turnos`: same physician,
estado IN ('pendiente','confirmado'), and
`(fecha_hora < fin ∧ fecha_hora + duracion > inicio) ∨
 (fecha_hora ≥ inicio ∧ fecha_hora < fin)`. -/
def conflictoCon (medico_id : Nat) (dt dt_fin : Int) (t : Turno) : Bool :=
  t.medico_id == medico_id &&
  (t.estado == some "pendiente" || t.estado == some "confirmado") &&
  ((t.fecha_hora < dt_fin && t.fecha_hora + t.duracion > dt) ||
   (t.fecha_hora >= dt && t.fecha_hora < dt_fin))

/-- Method `verificar_disponibilidad(medico_id, fecha_hora, duracion)`.
`fecha_hora = none` models a string `strptime` rejects: the exception is
caught and the method returns `False`.  Otherwise it counts the rows of
`turnos` matched by `conflictoCon` and reports availability iff the count is
zero. -/
def verificar_disponibilidad (db : DB) (medico_id : Nat) (fecha_hora : Option Int)
    (duracion : Int) : Bool :=
  match fecha_hora with
  | none => false
  | some dt => db.turnos.countP (conflictoCon medico_id dt (dt + duracion)) == 0

/-- Method `crear_turno(paciente_id, medico_id, fecha_hora, duracion,
motivo_consulta)`: if `verificar_disponibilidad` fails it prints and returns
`None` without touching the store; otherwise it inserts a row listing only
the columns `(paciente_id, medico_id, fecha_hora, duracion, motivo_consulta)`
— so `estado` and `observaciones` are NULL — commits, and returns
`lastrowid`.  No existence or argument validation is performed. -/
def crear_turno (db : DB) (paciente_id medico_id : Nat) (fecha_hora : Option Int)
    (duracion : Int) (motivo_consulta : Option String) : Option Nat × DB :=
  match fecha_hora with
  | none => (none, db)
  | some dt =>
    if verificar_disponibilidad db medico_id (some dt) duracion then
      let nuevo : Turno :=
        { id := db.next_turno_id, paciente_id := paciente_id, medico_id := medico_id
          fecha_hora := dt, duracion := duracion, motivo_consulta := motivo_consulta
          estado := none, observaciones := none }
      (some db.next_turno_id,
       { db with turnos := db.turnos ++ [nuevo], next_turno_id := db.next_turno_id + 1 })
    else
      (none, db)

/-- The column list of the INSERT in `registrar_paciente`:
`INSERT INTO pacientes (id_paciente, nombre, apellido, dni, fecha_nacimiento,
genero, telefono, domicilio)`. -/
def registrar_paciente_columnas : List String :=
  ["id_paciente", "nombre", "apellido", "dni", "fecha_nacimiento", "genero",
   "telefono", "domicilio"]

/-- The parameter tuple `registrar_paciente` binds to the placeholders of its
INSERT (seven placeholders, seven values). -/
def registrar_paciente_valores (nombre apellido dni : String)
    (fecha_nacimiento telefono email direccion : Option String) :
    List (Option String) :=
  [some nombre, some apellido, some dni, fecha_nacimiento, telefono, email, direccion]

/-- Method `registrar_paciente`: its INSERT names the eight columns of
`registrar_paciente_columnas` but binds only the seven values of
`registrar_paciente_valores`, so sqlite rejects the statement
(`sqlite3.OperationalError`, a `sqlite3.Error`) before writing any row; the
generic error branch prints and returns `None`.  The call therefore always
fails and never mutates the store; the dedicated `IntegrityError`
(duplicate-DNI) branch is unreachable. -/
def registrar_paciente (db : DB) (nombre apellido dni : String)
    (fecha_nacimiento telefono email direccion : Option String) : Option Nat × DB :=
  (none, db)

/-- The list `estados_validos` of `actualizar_estado_turno`. -/
def estados_validos : List String := ["pendiente", "confirmado", "cancelado", "completado"]

/-- Python truthiness of the `observaciones` argument: `if observaciones:`
is false for `None` and for the empty string. -/
def observacionesDadas : Option String → Bool
  | none => false
  | some s => !(s == "")

/-- Method `actualizar_estado_turno(turno_id, nuevo_estado, observaciones)`:
rejects a `nuevo_estado` outside `estados_validos` (returns `False`, store
untouched); otherwise runs
`UPDATE turnos SET estado = ?[, observaciones = ?] WHERE id = ?`
unconditionally — no check of the current state and no transition table —
and returns `cursor.rowcount > 0`, i.e. whether any row had the given id. -/
def actualizar_estado_turno (db : DB) (turno_id : Nat) (nuevo_estado : String)
    (observaciones : Option String) : Bool × DB :=
  if nuevo_estado ∈ estados_validos then
    let turnos := db.turnos.map (fun t =>
      if t.id == turno_id then
        if observacionesDadas observaciones then
          { t with estado := some nuevo_estado, observaciones := observaciones }
        else
          { t with estado := some nuevo_estado }
      else t)
    (decide (0 < db.turnos.countP (fun t => t.id == turno_id)),
     { db with turnos := turnos })
  else
    (false, db)

/-- A row of the result set of `listar_turnos_por_fecha`:
`t.id, p.nombre, p.apellido, m.nombre, m.apellido, m.especialidad,
t.fecha_hora, t.duracion, t.estado, t.motivo_consulta`. -/
structure FilaFecha where
  id : Nat
  p_nombre : String
  p_apellido : String
  m_nombre : String
  m_apellido : String
  m_especialidad : String
  fecha_hora : Int
  duracion : Int
  estado : Option String
  motivo_consulta : Option String
deriving DecidableEq, Repr

/-- A row of the result set of `listar_turnos_paciente`:
`t.id, m.nombre, m.apellido, m.especialidad, t.fecha_hora, t.duracion,
t.estado, t.motivo_consulta`. -/
structure FilaPaciente where
  id : Nat
  m_nombre : String
  m_apellido : String
  m_especialidad : String
  fecha_hora : Int
  duracion : Int
  estado : Option String
  motivo_consulta : Option String
deriving DecidableEq, Repr

/-- The inner join of one `turnos` row with `pacientes ON t.paciente_id = p.id`
and `medicos ON t.medico_id = m.id`, projected to the SELECT list of
`listar_turnos_por_fecha`. -/
def joinFecha (db : DB) (t : Turno) : List FilaFecha :=
  (db.pacientes.filter (fun p => p.id == t.paciente_id)).flatMap (fun p =>
    (db.medicos.filter (fun m => m.id == t.medico_id)).flatMap (fun m =>
      [{ id := t.id, p_nombre := p.nombre, p_apellido := p.apellido
         m_nombre := m.nombre, m_apellido := m.apellido
         m_especialidad := m.especialidad, fecha_hora := t.fecha_hora
         duracion := t.duracion, estado := t.estado
         motivo_consulta := t.motivo_consulta }]))

/-- The inner join of one `turnos` row with `medicos ON t.medico_id = m.id`,
projected to the SELECT list of `listar_turnos_paciente`. -/
def joinPaciente (db : DB) (t : Turno) : List FilaPaciente :=
  (db.medicos.filter (fun m => m.id == t.medico_id)).flatMap (fun m =>
    [{ id := t.id, m_nombre := m.nombre, m_apellido := m.apellido
       m_especialidad := m.especialidad, fecha_hora := t.fecha_hora
       duracion := t.duracion, estado := t.estado
       motivo_consulta := t.motivo_consulta }])

/-- ORDER BY `t.fecha_hora` ascending. -/
def ordenAsc (a b : FilaFecha) : Prop := a.fecha_hora ≤ b.fecha_hora

/-- ORDER BY `t.fecha_hora` descending. -/
def ordenDesc (a b : FilaPaciente) : Prop := b.fecha_hora ≤ a.fecha_hora

instance : DecidableRel ordenAsc := fun a b => Int.decLe _ _
instance : DecidableRel ordenDesc := fun a b => Int.decLe _ _

/-- Method `listar_turnos_por_fecha(fecha)`: rows of `turnos` with
`DATE(t.fecha_hora) = fecha`, inner-joined with `pacientes` and `medicos`,
ordered by `t.fecha_hora` ascending.  Pure SELECT, no store mutation. -/
def listar_turnos_por_fecha (db : DB) (fecha : Int) : List FilaFecha :=
  List.insertionSort ordenAsc
    ((db.turnos.filter (fun t => fechaDe t.fecha_hora == fecha)).flatMap (joinFecha db))

/-- Method `listar_turnos_paciente(paciente_id)`: rows of `turnos` with
`t.paciente_id = paciente_id`, inner-joined with `medicos`, ordered by
`t.fecha_hora` descending.  Pure SELECT, no store mutation. -/
def listar_turnos_paciente (db : DB) (paciente_id : Nat) : List FilaPaciente :=
  List.insertionSort ordenDesc
    ((db.turnos.filter (fun t => t.paciente_id == paciente_id)).flatMap (joinPaciente db))

/-- The turno-level columns of a `FilaFecha` row. -/
def filaFechaTurno (r : FilaFecha) : Nat × Int × Int × Option String × Option String :=
  (r.id, r.fecha_hora, r.duracion, r.estado, r.motivo_consulta)

/-- The turno-level columns of a `FilaPaciente` row. -/
def filaPacienteTurno (r : FilaPaciente) : Nat × Int × Int × Option String × Option String :=
  (r.id, r.fecha_hora, r.duracion, r.estado, r.motivo_consulta)

/-- The turno-level columns of a `turnos` row, for comparison with the
listing result sets. -/
def turnoDatos (t : Turno) : Nat × Int × Int × Option String × Option String :=
  (t.id, t.fecha_hora, t.duracion, t.estado, t.motivo_consulta)

/-- A store with one pendiente appointment of physician 1 on [600, 630). -/
def dbOcupada : DB :=
  { pacientes := [{ id := 1, nombre := "Juan", apellido := "Perez", dni := "12345678" }]
    medicos := [{ id := 1, nombre := "Carlos", apellido := "Rodriguez", especialidad := "Cardiologia" }]
    turnos := [{ id := 1, paciente_id := 1, medico_id := 1, fecha_hora := 600, duracion := 30
                 motivo_consulta := some "Control", estado := some "pendiente", observaciones := none }]
    next_turno_id := 2 }

/-- A store whose single appointment is in the terminal state completado. -/
def dbCompletado : DB :=
  { pacientes := [{ id := 1, nombre := "Juan", apellido := "Perez", dni := "12345678" }]
    medicos := [{ id := 1, nombre := "Carlos", apellido := "Rodriguez", especialidad := "Cardiologia" }]
    turnos := [{ id := 1, paciente_id := 1, medico_id := 1, fecha_hora := 600, duracion := 30
                 motivo_consulta := none, estado := some "completado", observaciones := none }]
    next_turno_id := 2 }

/-- A store for exercising the listings: one patient, one physician, two
appointments on day 10 (inserted out of chronological order) and one on
day 11. -/
def dbListado : DB :=
  { pacientes := [{ id := 1, nombre := "Ana", apellido := "Gomez", dni := "111" }]
    medicos := [{ id := 1, nombre := "Luis", apellido := "Diaz", especialidad := "Clinica" }]
    turnos :=
      [{ id := 1, paciente_id := 1, medico_id := 1, fecha_hora := 15000, duracion := 30
         motivo_consulta := none, estado := some "pendiente", observaciones := none },
       { id := 2, paciente_id := 1, medico_id := 1, fecha_hora := 14940, duracion := 30
         motivo_consulta := none, estado := some "confirmado", observaciones := none },
       { id := 3, paciente_id := 1, medico_id := 1, fecha_hora := 16440, duracion := 45
         motivo_consulta := some "Dolor", estado := none, observaciones := none }]
    next_turno_id := 4 }

/-- Pointwise reading of the conflict predicate: for a stored row of positive
duration, the SQL disjunction used by `verificar_disponibilidad` coincides
with half-open interval overlap of `[fecha_hora, fecha_hora + duracion)` and
`[dt, dt + d)`. -/
theorem conflictoCon_iff (medico_id : Nat) (dt d : Int) (t : Turno)
    (hdur : 0 < t.duracion) :
    conflictoCon medico_id dt (dt + d) t = true ↔
      t.medico_id = medico_id ∧
      (t.estado = some "pendiente" ∨ t.estado = some "confirmado") ∧
      (t.fecha_hora < dt + d ∧ dt < t.fecha_hora + t.duracion) := by
  unfold conflictoCon
  simp only [Bool.and_eq_true, Bool.or_eq_true, beq_iff_eq, decide_eq_true_eq, ge_iff_le]
  constructor
  · rintro ⟨⟨h1, h2⟩, h3⟩
    refine ⟨h1, h2, ?_⟩
    rcases h3 with ⟨h4, h5⟩ | ⟨h4, h5⟩ <;> constructor <;> omega
  · rintro ⟨h1, h2, h3, h4⟩
    exact ⟨⟨h1, h2⟩, Or.inl ⟨h3, by omega⟩⟩

/-- C1: for a parseable start time and any proposed duration,
`verificar_disponibilidad` returns true iff no stored appointment of the
physician in state pendiente or confirmado has an interval overlapping the
proposed `[dt, dt + d)` under half-open semantics (`a < d ∧ c < b`); stored
durations are positive as the data model requires.  In particular an
appointment ending exactly at `dt` does not conflict. -/
theorem C1_verificar_disponibilidad_iff (db : DB) (medico_id : Nat) (dt d : Int)
    (hdur : ∀ t ∈ db.turnos, 0 < t.duracion) :
    verificar_disponibilidad db medico_id (some dt) d = true ↔
      ∀ t ∈ db.turnos, t.medico_id = medico_id →
        (t.estado = some "pendiente" ∨ t.estado = some "confirmado") →
        ¬(t.fecha_hora < dt + d ∧ dt < t.fecha_hora + t.duracion) := by
  unfold verificar_disponibilidad
  rw [beq_iff_eq, List.countP_eq_zero]
  constructor
  · intro h t ht h1 h2 h3
    exact h t ht ((conflictoCon_iff medico_id dt d t (hdur t ht)).mpr ⟨h1, h2, h3⟩)
  · intro h t ht hc
    obtain ⟨h1, h2, h3⟩ := (conflictoCon_iff medico_id dt d t (hdur t ht)).mp hc
    exact h t ht h1 h2 h3

/-- C1 witness: in `dbOcupada` (one pendiente appointment on [600, 630) for
physician 1), a proposal starting back-to-back at 630 is available. -/
theorem C1_witness :
    verificar_disponibilidad dbOcupada 1 (some 630) 30 = true ↔
      ∀ t ∈ dbOcupada.turnos, t.medico_id = 1 →
        (t.estado = some "pendiente" ∨ t.estado = some "confirmado") →
        ¬(t.fecha_hora < 630 + 30 ∧ 630 < t.fecha_hora + t.duracion) :=
  C1_verificar_disponibilidad_iff dbOcupada 1 630 30 (by decide)

/-- C5: whenever the availability check reports the physician unavailable,
`crear_turno` returns None and leaves the store exactly as it was. -/
theorem C5_conflicto_sin_insercion (db : DB) (paciente_id medico_id : Nat)
    (fecha_hora : Option Int) (duracion : Int) (motivo : Option String)
    (h : verificar_disponibilidad db medico_id fecha_hora duracion = false) :
    crear_turno db paciente_id medico_id fecha_hora duracion motivo = (none, db) := by
  unfold crear_turno
  cases fecha_hora with
  | none => rfl
  | some dt => simp [h]

/-- C5 witness: in `dbOcupada` a proposal at 615 overlaps the pendiente
appointment, the check fails, and the create call changes nothing. -/
theorem C5_witness :
    verificar_disponibilidad dbOcupada 1 (some 615) 30 = false ∧
      crear_turno dbOcupada 2 1 (some 615) 30 none = (none, dbOcupada) :=
  ⟨by decide, C5_conflicto_sin_insercion dbOcupada 2 1 (some 615) 30 none (by decide)⟩

/-- C2: starting from the empty store, two create calls for physician 1 with
the identical interval [600, 630) both succeed, and the store then holds two
appointments of that physician with identical overlapping intervals.  The
first insert writes no estado (NULL), so the availability filter
`estado IN ('pendiente','confirmado')` never sees it and the per-physician
calendar-occupancy guarantee the invariant describes is absent. -/
theorem C2_doble_reserva :
    (crear_turno dbVacia 1 1 (some 600) 30 none).1 = some 1 ∧
      (crear_turno (crear_turno dbVacia 1 1 (some 600) 30 none).2
          2 1 (some 600) 30 none).1 = some 2 ∧
      ((crear_turno (crear_turno dbVacia 1 1 (some 600) 30 none).2
            2 1 (some 600) 30 none).2.turnos.map
          (fun t => (t.medico_id, t.fecha_hora, t.duracion, t.estado)))
        = [(1, 600, 30, none), (1, 600, 30, none)] := by
  decide

/-- C3 counterexample: in `dbCompletado` the single appointment is in the
terminal state completado, yet `actualizar_estado_turno` moves it to
pendiente and reports success — transitions after completado do not fail. -/
theorem C3_counterexample :
    (actualizar_estado_turno dbCompletado 1 "pendiente" none).1 = true ∧
      (actualizar_estado_turno dbCompletado 1 "pendiente" none).2.turnos.map
          (fun t => t.estado) = [some "pendiente"] := by
  decide

/-- C3 amended: `actualizar_estado_turno` rejects only a nuevo_estado outside
the four recognized strings (returning false with the store untouched); for a
recognized nuevo_estado it succeeds exactly when a row with the given id
exists, overwriting that row's estado unconditionally — no terminal-state
protection and no transition table. -/
theorem C3_actualizar_sin_tabla (db : DB) (turno_id : Nat) (nuevo_estado : String)
    (obs : Option String) :
    (nuevo_estado ∉ estados_validos →
      actualizar_estado_turno db turno_id nuevo_estado obs = (false, db)) ∧
    (nuevo_estado ∈ estados_validos →
      (((actualizar_estado_turno db turno_id nuevo_estado obs).1 = true ↔
          ∃ t ∈ db.turnos, t.id = turno_id) ∧
        ∀ t ∈ (actualizar_estado_turno db turno_id nuevo_estado obs).2.turnos,
          t.id = turno_id → t.estado = some nuevo_estado)) := by
  constructor
  · intro h
    unfold actualizar_estado_turno
    rw [if_neg h]
  · intro h
    unfold actualizar_estado_turno
    rw [if_pos h]
    constructor
    · simp only [decide_eq_true_eq, List.countP_pos_iff, beq_iff_eq]
    · intro t ht hid
      simp only [List.mem_map] at ht
      obtain ⟨a, ha, rfl⟩ := ht
      by_cases hai : a.id == turno_id
      · rw [if_pos hai]
        by_cases ho : observacionesDadas obs
        · rw [if_pos ho]
        · rw [if_neg ho]
      · rw [if_neg hai] at hid ⊢
        exact absurd (beq_iff_eq.mpr hid) hai

/-- C3 witness: applying the amended characterization in `dbCompletado` with
the recognized state pendiente: the call succeeds (a row with id 1 exists)
and rewrites the completado appointment to pendiente. -/
theorem C3_witness :
    ((actualizar_estado_turno dbCompletado 1 "pendiente" (some "nota")).1 = true ↔
        ∃ t ∈ dbCompletado.turnos, t.id = 1) ∧
      ∀ t ∈ (actualizar_estado_turno dbCompletado 1 "pendiente" (some "nota")).2.turnos,
        t.id = 1 → t.estado = some "pendiente" :=
  (C3_actualizar_sin_tabla dbCompletado 1 "pendiente" (some "nota")).2 (by decide)

/-- C4 counterexample: on the empty store a create call with nonexistent
patient 99, nonexistent physician 99 and duration 0 succeeds and inserts a
row — no NotFoundError and no InvalidArgumentError is possible. -/
theorem C4_counterexample :
    (crear_turno dbVacia 99 99 (some 600) 0 none).1 = some 1 ∧
      (crear_turno dbVacia 99 99 (some 600) 0 none).2.turnos.length = 1 ∧
      (crear_turno dbVacia 99 99 (some 600) 0 none).2 ≠ dbVacia := by
  decide

/-- C4 amended: `crear_turno` validates neither the existence of the patient
or physician nor the duration: whenever the availability check passes the
insert happens and lastrowid is returned, for arbitrary ids and durations.
The only input-sensitive failure is the availability check itself: an
unparseable start time makes it return false, so the call fails (printing and
returning None, the same path as a scheduling conflict) with the store
unchanged. -/
theorem C4_sin_validacion (db : DB) (paciente_id medico_id : Nat) (dt duracion : Int)
    (motivo : Option String) :
    crear_turno db paciente_id medico_id none duracion motivo = (none, db) ∧
      (verificar_disponibilidad db medico_id (some dt) duracion = true →
        (crear_turno db paciente_id medico_id (some dt) duracion motivo).1
          = some db.next_turno_id) := by
  constructor
  · rfl
  · intro h
    unfold crear_turno
    simp [h]

/-- C4 witness: the unparseable-timestamp branch on the empty store, and the
availability check passing there for nonexistent ids and zero duration, so
the create call returns id 1. -/
theorem C4_witness :
    crear_turno dbVacia 99 99 none 0 none = (none, dbVacia) ∧
      (crear_turno dbVacia 99 99 (some 600) 0 none).1 = some 1 :=
  ⟨(C4_sin_validacion dbVacia 99 99 600 0 none).1,
   (C4_sin_validacion dbVacia 99 99 600 0 none).2 (by decide)⟩

/-- C7: the INSERT of `registrar_paciente` names eight columns but binds only
seven values, so sqlite rejects it and every registration — including the
very first, with no duplicate DNI in sight — prints an error and returns
None, leaving the store unchanged. -/
theorem C7_registro_siempre_falla :
    registrar_paciente_columnas.length = 8 ∧
      (registrar_paciente_valores "Juan" "Perez" "12345678" (some "1980-05-15")
          (some "1145678901") (some "juan.perez@email.com")
          (some "Av. Corrientes 1234")).length = 7 ∧
      registrar_paciente dbVacia "Juan" "Perez" "12345678" (some "1980-05-15")
          (some "1145678901") (some "juan.perez@email.com")
          (some "Av. Corrientes 1234")
        = (none, dbVacia) := by
  exact ⟨rfl, rfl, rfl⟩

/-- C8: a successful create on the empty store returns lastrowid 1 and
persists exactly one row, but that row's estado is NULL, not pendiente: the
INSERT lists no estado column (and the declared turnos schema has none). -/
theorem C8_estado_no_pendiente :
    (crear_turno dbVacia 1 1 (some 600) 30 (some "Control")).1 = some 1 ∧
      (crear_turno dbVacia 1 1 (some 600) 30 (some "Control")).2.turnos.map
          (fun t => t.estado) = [none] := by
  decide

/-- C10: for a recognized nuevo_estado and an observaciones argument that is
None or the empty string (both falsy in Python), the update touches only the
estado column of the rows with the given id: the whole store afterwards is
the original with exactly that pointwise change, so observaciones, every
other column, and every other appointment are untouched. -/
theorem C10_observaciones_vacias (db : DB) (turno_id : Nat) (nuevo_estado : String)
    (obs : Option String) (hs : nuevo_estado ∈ estados_validos)
    (hobs : obs = none ∨ obs = some "") :
    (actualizar_estado_turno db turno_id nuevo_estado obs).2 =
      { db with turnos := db.turnos.map (fun t =>
          if t.id == turno_id then { t with estado := some nuevo_estado } else t) } := by
  unfold actualizar_estado_turno
  rw [if_pos hs]
  rcases hobs with h | h <;> subst h <;> rfl

/-- C10 witness: updating the pendiente appointment of `dbOcupada` to
confirmado with an empty observaciones string changes only its estado. -/
theorem C10_witness :
    (actualizar_estado_turno dbOcupada 1 "confirmado" (some "")).2 =
      { dbOcupada with turnos := dbOcupada.turnos.map (fun t =>
          if t.id == 1 then { t with estado := some "confirmado" } else t) } :=
  C10_observaciones_vacias dbOcupada 1 "confirmado" (some "") (by decide) (Or.inr rfl)

instance : IsTotal FilaFecha ordenAsc :=
  ⟨fun a b => Int.le_total a.fecha_hora b.fecha_hora⟩

instance : IsTrans FilaFecha ordenAsc :=
  ⟨fun _ _ _ h1 h2 => le_trans h1 h2⟩

instance : IsTotal FilaPaciente ordenDesc :=
  ⟨fun a b => Int.le_total b.fecha_hora a.fecha_hora⟩

instance : IsTrans FilaPaciente ordenDesc :=
  ⟨fun _ _ _ h1 h2 => le_trans h2 h1⟩

/-- A flatMap each of whose blocks projects to a singleton projects to a map. -/
theorem flatMap_singleton_map {α β γ : Type} (f : α → List β) (g : β → γ) (h : α → γ) :
    ∀ l : List α, (∀ a ∈ l, (f a).map g = [h a]) →
      (l.flatMap f).map g = l.map h := by
  intro l
  induction l with
  | nil => intro _; rfl
  | cons a l ih =>
    intro hl
    simp only [List.flatMap_cons, List.map_append, List.map_cons]
    rw [hl a (List.mem_cons_self a l), ih (fun x hx => hl x (List.mem_cons_of_mem _ hx))]
    rfl

/-- When the turno's foreign keys match exactly one paciente and one medico,
the join block of `listar_turnos_por_fecha` produces exactly one row, whose
turno-level columns are those of the turno. -/
theorem joinFecha_singleton (db : DB) (t : Turno)
    (hp : (db.pacientes.filter (fun p => p.id == t.paciente_id)).length = 1)
    (hm : (db.medicos.filter (fun m => m.id == t.medico_id)).length = 1) :
    (joinFecha db t).map filaFechaTurno = [turnoDatos t] := by
  obtain ⟨p, hp1⟩ := List.length_eq_one.mp hp
  obtain ⟨m, hm1⟩ := List.length_eq_one.mp hm
  unfold joinFecha
  rw [hp1, hm1]
  rfl

/-- When the turno's medico key matches exactly one medico, the join block of
`listar_turnos_paciente` produces exactly one row, whose turno-level columns
are those of the turno. -/
theorem joinPaciente_singleton (db : DB) (t : Turno)
    (hm : (db.medicos.filter (fun m => m.id == t.medico_id)).length = 1) :
    (joinPaciente db t).map filaPacienteTurno = [turnoDatos t] := by
  obtain ⟨m, hm1⟩ := List.length_eq_one.mp hm
  unfold joinPaciente
  rw [hm1]
  rfl

/-- C6: under referential integrity (each turno's paciente_id and medico_id
match exactly one paciente / medico row), `listar_turnos_por_fecha` is sorted
ascending by fecha_hora and its rows' turno columns are, up to order, exactly
those of the turnos whose DATE(fecha_hora) equals the requested day; and
`listar_turnos_paciente` is sorted descending by fecha_hora with exactly the
turnos of the requested patient.  Both are pure reads of the store. -/
theorem C6_listados (db : DB) (fecha : Int) (paciente_id : Nat)
    (hP : ∀ t ∈ db.turnos, (db.pacientes.filter (fun p => p.id == t.paciente_id)).length = 1)
    (hM : ∀ t ∈ db.turnos, (db.medicos.filter (fun m => m.id == t.medico_id)).length = 1) :
    List.Sorted ordenAsc (listar_turnos_por_fecha db fecha) ∧
    List.Perm ((listar_turnos_por_fecha db fecha).map filaFechaTurno)
      ((db.turnos.filter (fun t => fechaDe t.fecha_hora == fecha)).map turnoDatos) ∧
    List.Sorted ordenDesc (listar_turnos_paciente db paciente_id) ∧
    List.Perm ((listar_turnos_paciente db paciente_id).map filaPacienteTurno)
      ((db.turnos.filter (fun t => t.paciente_id == paciente_id)).map turnoDatos) := by
  refine ⟨List.sorted_insertionSort ordenAsc _, ?_, List.sorted_insertionSort ordenDesc _, ?_⟩
  · have hperm := (List.perm_insertionSort ordenAsc
      ((db.turnos.filter (fun t => fechaDe t.fecha_hora == fecha)).flatMap (joinFecha db))).map
      filaFechaTurno
    unfold listar_turnos_por_fecha
    refine hperm.trans (List.Perm.of_eq ?_)
    refine flatMap_singleton_map (joinFecha db) filaFechaTurno turnoDatos _ (fun t ht => ?_)
    have ht' := List.mem_of_mem_filter ht
    exact joinFecha_singleton db t (hP t ht') (hM t ht')
  · have hperm := (List.perm_insertionSort ordenDesc
      ((db.turnos.filter (fun t => t.paciente_id == paciente_id)).flatMap (joinPaciente db))).map
      filaPacienteTurno
    unfold listar_turnos_paciente
    refine hperm.trans (List.Perm.of_eq ?_)
    refine flatMap_singleton_map (joinPaciente db) filaPacienteTurno turnoDatos _ (fun t ht => ?_)
    exact joinPaciente_singleton db t (hM t (List.mem_of_mem_filter ht))

/-- C6 witness: in `dbListado` (three appointments, two on day 10 inserted
out of order and one on day 11) both listings are sorted as required and
return exactly the matching turnos. -/
theorem C6_witness :
    List.Sorted ordenAsc (listar_turnos_por_fecha dbListado 10) ∧
    List.Perm ((listar_turnos_por_fecha dbListado 10).map filaFechaTurno)
      ((dbListado.turnos.filter (fun t => fechaDe t.fecha_hora == 10)).map turnoDatos) ∧
    List.Sorted ordenDesc (listar_turnos_paciente dbListado 1) ∧
    List.Perm ((listar_turnos_paciente dbListado 1).map filaPacienteTurno)
      ((dbListado.turnos.filter (fun t => t.paciente_id == 1)).map turnoDatos) :=
  C6_listados dbListado 10 1 (by decide) (by decide)

end GestionTurnos
